import Mathlib

/-!
Verification of the uptime-checker subsystem of the webring repository
(package `uptime`, file `internal/uptime/checker.go`).

The embedding below is a shallow model of the checker's pure decision logic:

* the per-site failure counters (a `sync.Map` holding `int` counters that are
  read with `LoadOrStore(id, 0)`) are modelled as a total function
  `Int → Nat` whose default value is `0`;
* the per-site notify states (a `sync.Map` holding `*NotifyState`) are
  modelled as a function `Int → Option NotifyState`; absence of a key is
  `none`;
* `time.Time` and `time.Duration` values are modelled as integer nanosecond
  counts (`Int`); `30 * time.Second` is `30000000000` ns;
* the `float64` response-time values are only ever copied into storage,
  never computed with, so they are modelled as opaque integers (`Int`);
* the `sites` table rows touched by the checker (`is_up`, `last_check`) are
  modelled as a function `Int → SiteRow`;
* a `db.Exec` that may fail is modelled by an explicit `writeOk : Bool`
  argument: on failure the row is left unchanged (the Go code only logs).
-/

/-- One row of the `sites` table as far as the checker writes it:
`UPDATE sites SET is_up = ..., last_check = ...`. -/
structure SiteRow where
  isUp : Bool
  lastCheck : Int
  deriving Repr, DecidableEq

/-- Model of Go `models.Site` restricted to the fields the checker reads
(`id, name, url, user_id`). -/
structure Site where
  id : Int
  name : String
  url : String
  userID : Option Int
  deriving Repr, DecidableEq

/-- Model of Go `siteWithStatus` (checker.go): a site together with its
committed `is_up` value read at scheduling time. -/
structure SiteWithStatus where
  site : Site
  isUp : Bool
  deriving Repr, DecidableEq

/-- Model of Go `checkTask` (checker.go lines 35-39). -/
structure CheckTask where
  site : Site
  useProxy : Bool
  currentUp : Bool
  deriving Repr, DecidableEq

/-- Model of Go `checkResult` (checker.go lines 41-51). -/
structure CheckResult where
  siteID : Int
  siteName : String
  userID : Option Int
  isUp : Bool
  wasUp : Bool
  responseTime : Int
  errorMsg : String
  useProxy : Bool
  proxyError : Bool
  deriving Repr, DecidableEq

/-- Model of Go `NotifyState` (checker.go lines 70-73): last notified
status and the (nanosecond) time of that notification. -/
structure NotifyState where
  lastNotifiedState : Bool
  notifiedAt : Int
  deriving Repr, DecidableEq

/-- The proxy-health bookkeeping local to `resultProcessor`
(checker.go lines 393-395) together with the `Checker.proxyAlive` flag. -/
structure ProxyState where
  proxyFailures : Nat
  proxySuccesses : Nat
  proxyAlive : Bool
  deriving Repr, DecidableEq

/-- Outcome of `processCheckResult`: the Go function returns
`(shouldUpdateDB, newIsUp)` and mutates `c.failureCounters`; the model
returns all three. -/
structure ProcessOutcome where
  counters : Int → Nat
  shouldUpdateDB : Bool
  newIsUp : Bool

/-- The combined effect of one iteration of the `resultProcessor` loop body
(checker.go lines 401-448) on the checker's mutable state. -/
structure StepOutput where
  counters : Int → Nat
  notifyStates : Int → Option NotifyState
  proxy : ProxyState
  db : Int → SiteRow
  dispatched : Bool

/-- Go constant `defaultDownThreshold = 3` (checker.go line 32). -/
def defaultDownThreshold : Nat := 3

/-- Go constant `proxyThreshold = 5` local to `resultProcessor`
(checker.go line 395). -/
def proxyThreshold : Nat := 5

/-- Go `30 * time.Second` (checker.go line 512) in nanoseconds. -/
def quietPeriodNs : Int := 30000000000

/-- The proxy state as initialized by `NewChecker` (`proxyAlive: true`,
checker.go line 136) and `resultProcessor` (`proxyFailures := 0`,
`proxySuccesses := 0`, checker.go lines 393-394). -/
def initialProxyState : ProxyState :=
  { proxyFailures := 0, proxySuccesses := 0, proxyAlive := true }

/-- Model of `processCheckResult` (checker.go lines 453-488).

Go:
  dbIsUp := result.wasUp
  if result.isUp { store counter 0; if !dbIsUp return (true,true); return (false,true) }
  if !dbIsUp { return (false,false) }
  newCount := LoadOrStore(siteID,0) + 1; store newCount
  if newCount >= downThreshold { store 0; return (true,false) }
  return (false,true)

The two consecutive `Store` calls in the threshold branch net to a stored
value of `0`. -/
def processCheckResult (downThreshold : Nat) (counters : Int → Nat)
    (r : CheckResult) : ProcessOutcome :=
  if r.isUp then
    { counters := fun id => if id = r.siteID then 0 else counters id,
      shouldUpdateDB := !r.wasUp,
      newIsUp := true }
  else if !r.wasUp then
    { counters := counters, shouldUpdateDB := false, newIsUp := false }
  else
    let newCount := counters r.siteID + 1
    if newCount ≥ downThreshold then
      { counters := fun id => if id = r.siteID then 0 else counters id,
        shouldUpdateDB := true, newIsUp := false }
    else
      { counters := fun id => if id = r.siteID then newCount else counters id,
        shouldUpdateDB := false, newIsUp := true }

/-- Sequential processing of a list of results by `processCheckResult`,
threading the failure-counter map and recording each
`(shouldUpdateDB, newIsUp)` decision in order.  This is the per-site view of
the single-threaded `resultProcessor` loop. -/
def processResultsSeq (downThreshold : Nat) (counters : Int → Nat) :
    List CheckResult → (Int → Nat) × List (Bool × Bool)
  | [] => (counters, [])
  | r :: rs =>
    let p := processCheckResult downThreshold counters r
    let rest := processResultsSeq downThreshold p.counters rs
    (rest.1, (p.shouldUpdateDB, p.newIsUp) :: rest.2)

/-- Model of `checkAndNotifyStatusChange` (checker.go lines 490-523).
Returns the updated notify-state map and whether a notification was
dispatched (`go c.notifyOwner(...)` fired).  The Go code mutates the stored
`*NotifyState` in place and re-stores the same pointer; extensionally the
map only changes when the quiet-period gate passes. -/
def checkAndNotifyStatusChange (states : Int → Option NotifyState)
    (siteID : Int) (userID : Option Int) (currentIsUp : Bool) (now : Int) :
    (Int → Option NotifyState) × Bool :=
  match states siteID with
  | none =>
    (fun id => if id = siteID then
        some { lastNotifiedState := currentIsUp, notifiedAt := now }
      else states id,
     false)
  | some state =>
    if state.lastNotifiedState = currentIsUp then
      (states, false)
    else if now - state.notifiedAt ≥ quietPeriodNs then
      (fun id => if id = siteID then
          some { lastNotifiedState := currentIsUp, notifiedAt := now }
        else states id,
       match userID with
       | some uid => uid ≠ 0
       | none => false)
    else
      (states, false)

/-- Model of `loadInitialNotifyStates` (checker.go lines 183-212): for each
row `(id, is_up)` of the `sites` table, store a `NotifyState` seeded with
the committed status and the current time. -/
def loadInitialNotifyStates (rows : List (Int × Bool)) (now : Int) :
    Int → Option NotifyState :=
  rows.foldl
    (fun m p => fun id =>
      if id = p.1 then some { lastNotifiedState := p.2, notifiedAt := now }
      else m id)
    (fun _ => none)

/-- Model of `updateSiteStatus` (checker.go lines 581-586):
`UPDATE sites SET is_up = $1, last_check = $2 WHERE id = $3`. -/
def updateSiteStatus (row : SiteRow) (isUp : Bool) (responseTime : Int) :
    SiteRow :=
  { row with isUp := isUp, lastCheck := responseTime }

/-- Model of `updateSiteResponseTime` (checker.go lines 588-593):
`UPDATE sites SET last_check = $1 WHERE id = $2` — `is_up` untouched. -/
def updateSiteResponseTime (row : SiteRow) (responseTime : Int) : SiteRow :=
  { row with lastCheck := responseTime }

/-- The proxy-health bookkeeping of one `resultProcessor` iteration
(checker.go lines 420-448).  Go only mutates `c.proxyAlive` under
`if c.proxyAlive` (resp. `if !c.proxyAlive`), which is extensionally the
same as assigning unconditionally. -/
def processProxyHealth (s : ProxyState) (r : CheckResult) : ProxyState :=
  if r.useProxy then
    let s1 :=
      if r.proxyError then
        { s with proxyFailures := s.proxyFailures + 1, proxySuccesses := 0 }
      else if r.isUp then
        { s with proxySuccesses := s.proxySuccesses + 1, proxyFailures := 0 }
      else s
    let s2 :=
      if s1.proxyFailures ≥ proxyThreshold then
        { s1 with proxyAlive := false, proxyFailures := 0 }
      else s1
    if s2.proxySuccesses ≥ proxyThreshold then
      { s2 with proxyAlive := true, proxySuccesses := 0 }
    else s2
  else s

/-- Folding the proxy-health bookkeeping over a sequence of results, starting
from the checker's initial proxy state. -/
def processProxyResults (rs : List CheckResult) : ProxyState :=
  rs.foldl processProxyHealth initialProxyState

/-- One full iteration of the `resultProcessor` loop body
(checker.go lines 401-448) over a result: hysteresis decision, the storage
write (status commit or latency-only), the notification path, and the
proxy-health bookkeeping.  `writeOk` models whether the `db.Exec` of the
chosen write succeeds; on failure the Go code only logs
(`log.Printf("Error updating site status: ...")`) and the row is unchanged. -/
def resultProcessorStep (downThreshold : Nat) (counters : Int → Nat)
    (notifyStates : Int → Option NotifyState) (proxy : ProxyState)
    (db : Int → SiteRow) (r : CheckResult) (now : Int) (writeOk : Bool) :
    StepOutput :=
  let p := processCheckResult downThreshold counters r
  if p.shouldUpdateDB then
    let db1 :=
      if writeOk then
        fun id => if id = r.siteID then
            updateSiteStatus (db id) p.newIsUp r.responseTime
          else db id
      else db
    let notified := checkAndNotifyStatusChange notifyStates r.siteID r.userID
      p.newIsUp now
    { counters := p.counters, notifyStates := notified.1,
      proxy := processProxyHealth proxy r, db := db1,
      dispatched := notified.2 }
  else
    let db1 :=
      if writeOk then
        fun id => if id = r.siteID then
            updateSiteResponseTime (db id) r.responseTime
          else db id
      else db
    { counters := p.counters, notifyStates := notifyStates,
      proxy := processProxyHealth proxy r, db := db1,
      dispatched := false }

/-- Model of `scheduleTasks` (checker.go lines 264-287) restricted to its
queueing behaviour: the per-pass proxy decision
`useProxy := c.proxy != nil && c.proxyAlive` is computed once before the
loop; then for each site, a `checkTask` is appended if the bounded task
queue (capacity 1000) has room, otherwise the site is dropped for this pass
with a warning.  Returns the final queue contents and the dropped sites. -/
def scheduleTasks (proxyConfigured proxyAlive : Bool) (capacity : Nat)
    (queue : List CheckTask) (sites : List SiteWithStatus) :
    List CheckTask × List SiteWithStatus :=
  let useProxy := proxyConfigured && proxyAlive
  sites.foldl
    (fun acc s =>
      if acc.1.length < capacity then
        (acc.1 ++ [{ site := s.site, useProxy := useProxy,
                     currentUp := s.isUp }], acc.2)
      else
        (acc.1, acc.2 ++ [s]))
    (queue, [])

/-- The task built by `scheduleTasks` for a given site and per-pass proxy
decision. -/
def mkCheckTask (useProxy : Bool) (s : SiteWithStatus) : CheckTask :=
  { site := s.site, useProxy := useProxy, currentUp := s.isUp }

/-- Go `len` on a string: the byte length of its UTF-8 encoding, computed
over the character list. -/
def goLen (u : String) : Nat :=
  u.data.foldl (fun n c => n + c.utf8Size) 0

/-- Go `strings.HasPrefix(u, p)`: byte-level prefix test.  For valid UTF-8
encodings a byte-level prefix of a whole character sequence coincides with
a character-level prefix, so it is modelled as `List.isPrefixOf` on the
character lists. -/
def goHasPrefix (u p : String) : Bool :=
  p.data.isPrefixOf u.data

/-- Model of `hasProtocol` (checker.go lines 644-646):
`len(u) > 8 && (strings.HasPrefix(u, "http://") || strings.HasPrefix(u, "https://"))`. -/
def hasProtocol (u : String) : Bool :=
  goLen u > 8 && (goHasPrefix u ("http://") || goHasPrefix u ("https://"))

/-- The URL normalization step of `checkSite` (checker.go lines 351-354):
`if !hasProtocol(siteURL) { siteURL = "https://" + siteURL }`. -/
def normalizeURL (u : String) : String :=
  if !hasProtocol u then "https://" ++ u else u

example : normalizeURL ("example.com") = "https://example.com" := by decide
example : normalizeURL ("https://example.com") = "https://example.com" := by decide
example : normalizeURL ("http://a") = "https://http://a" := by decide
example :
    (processCheckResult 3 (fun _ => 0)
      { siteID := 1, siteName := "s", userID := some 2, isUp := false,
        wasUp := true, responseTime := 5, errorMsg := "x", useProxy := false,
        proxyError := false }).shouldUpdateDB = false := by decide

/-! ## Helper lemmas -/

theorem loadInitialNotifyStates_foldl_none (now sid : Int) :
    ∀ (rows : List (Int × Bool)) (m : Int → Option NotifyState),
      m sid = none → sid ∉ rows.map Prod.fst →
      rows.foldl
        (fun m p => fun id =>
          if id = p.1 then some { lastNotifiedState := p.2, notifiedAt := now }
          else m id)
        m sid = none := by
  intro rows
  induction rows with
  | nil => intro m hm _; exact hm
  | cons p rs ih =>
    intro m hm hmem
    simp only [List.map_cons, List.mem_cons, not_or] at hmem
    refine ih _ ?_ hmem.2
    simp [hmem.1, hm]

theorem dispatch_requires_gate (states : Int → Option NotifyState)
    (siteID : Int) (userID : Option Int) (b : Bool) (t : Int)
    (hd : (checkAndNotifyStatusChange states siteID userID b t).2 = true) :
    ∃ st, states siteID = some st ∧ st.lastNotifiedState ≠ b ∧
      t - st.notifiedAt ≥ quietPeriodNs ∧
      (checkAndNotifyStatusChange states siteID userID b t).1 siteID =
        some { lastNotifiedState := b, notifiedAt := t } := by
  cases hst : states siteID with
  | none => simp [checkAndNotifyStatusChange, hst] at hd
  | some st =>
    by_cases h1 : st.lastNotifiedState = b
    · simp [checkAndNotifyStatusChange, hst, h1] at hd
    · by_cases h2 : t - st.notifiedAt ≥ quietPeriodNs
      · exact ⟨st, rfl, h1, h2, by simp [checkAndNotifyStatusChange, hst, h1, h2]⟩
      · simp [checkAndNotifyStatusChange, hst, h1, h2] at hd

/-! ## Claims -/

/-- C2: for every successful probe result the site's failure counter is
reset to 0 regardless of its prior value; if the carried committed status
was down, the result commits up immediately (no recovery threshold),
otherwise no status commit occurs. -/
theorem counter_reset_and_asymmetric_recovery (N : Nat) (counters : Int → Nat)
    (r : CheckResult) (h : r.isUp = true) :
    (processCheckResult N counters r).counters r.siteID = 0 ∧
    (r.wasUp = false →
      (processCheckResult N counters r).shouldUpdateDB = true ∧
      (processCheckResult N counters r).newIsUp = true) ∧
    (r.wasUp = true →
      (processCheckResult N counters r).shouldUpdateDB = false) := by
  refine ⟨?_, ?_, ?_⟩ <;> simp [processCheckResult, h]

theorem counter_reset_and_asymmetric_recovery_witness :
    (processCheckResult 3 (fun _ => 7)
      { siteID := 1, siteName := "s", userID := some 2, isUp := true,
        wasUp := false, responseTime := 10, errorMsg := "", useProxy := false,
        proxyError := false }).counters 1 = 0 ∧
    ((false : Bool) = false →
      (processCheckResult 3 (fun _ => 7)
        { siteID := 1, siteName := "s", userID := some 2, isUp := true,
          wasUp := false, responseTime := 10, errorMsg := "", useProxy := false,
          proxyError := false }).shouldUpdateDB = true ∧
      (processCheckResult 3 (fun _ => 7)
        { siteID := 1, siteName := "s", userID := some 2, isUp := true,
          wasUp := false, responseTime := 10, errorMsg := "", useProxy := false,
          proxyError := false }).newIsUp = true) ∧
    ((false : Bool) = true →
      (processCheckResult 3 (fun _ => 7)
        { siteID := 1, siteName := "s", userID := some 2, isUp := true,
          wasUp := false, responseTime := 10, errorMsg := "", useProxy := false,
          proxyError := false }).shouldUpdateDB = false) :=
  counter_reset_and_asymmetric_recovery 3 (fun _ => 7)
    { siteID := 1, siteName := "s", userID := some 2, isUp := true,
      wasUp := false, responseTime := 10, errorMsg := "", useProxy := false,
      proxyError := false } rfl

/-- C6 counterexample: the URL "http://a" already has an http:// scheme
prefix, yet the probe's normalization does not use it unchanged — it
prepends https:// because `hasProtocol` additionally requires the length to
exceed 8 bytes. -/
theorem scheme_preserved_counterexample :
    goHasPrefix ("http://a") ("http://") = true ∧
    normalizeURL ("http://a") = "https://http://a" ∧
    normalizeURL ("http://a") ≠ "http://a" := by decide

/-- C6 (amended): the probe uses the target URL unchanged when it has an
http:// or https:// prefix AND its UTF-8 byte length exceeds 8; in every
other case (including scheme-prefixed URLs of at most 8 bytes, such as
"http://a") it prepends https:// exactly once. -/
theorem scheme_normalization_amended (u : String) :
    ((goHasPrefix u ("http://") = true ∨ goHasPrefix u ("https://") = true) →
      goLen u > 8 → normalizeURL u = u) ∧
    (hasProtocol u = false → normalizeURL u = "https://" ++ u) := by
  constructor
  · intro hpre hlen
    have hp : hasProtocol u = true := by
      unfold hasProtocol
      rcases hpre with h | h <;> simp [h, hlen]
    simp [normalizeURL, hp]
  · intro hp
    simp [normalizeURL, hp]

theorem scheme_normalization_amended_witness :
    normalizeURL ("https://example.com") = "https://example.com" ∧
    normalizeURL ("example.com") = "https://" ++ "example.com" :=
  ⟨(scheme_normalization_amended ("https://example.com")).1
      (Or.inr (by decide)) (by decide),
   (scheme_normalization_amended ("example.com")).2 (by decide)⟩

/-- C10: a site with no NotifyState entry at its first committed status
change gets a NotifyState seeded with the new status and the current time,
no notification is dispatched, other entries are untouched; and the startup
seeding gives no entry to a site absent from the initial rows. -/
theorem first_commit_seeds_notify_state (states : Int → Option NotifyState)
    (siteID : Int) (userID : Option Int) (b : Bool) (t : Int)
    (h : states siteID = none) :
    (checkAndNotifyStatusChange states siteID userID b t).2 = false ∧
    (checkAndNotifyStatusChange states siteID userID b t).1 siteID =
      some { lastNotifiedState := b, notifiedAt := t } ∧
    (∀ id, id ≠ siteID →
      (checkAndNotifyStatusChange states siteID userID b t).1 id = states id) ∧
    (∀ (rows : List (Int × Bool)) (now sid : Int),
      sid ∉ rows.map Prod.fst → loadInitialNotifyStates rows now sid = none) := by
  refine ⟨?_, ?_, ?_, ?_⟩
  · simp [checkAndNotifyStatusChange, h]
  · simp [checkAndNotifyStatusChange, h]
  · intro id hid
    simp [checkAndNotifyStatusChange, h, hid]
  · intro rows now sid hmem
    exact loadInitialNotifyStates_foldl_none now sid rows (fun _ => none) rfl hmem

theorem first_commit_seeds_notify_state_witness :
    (checkAndNotifyStatusChange (fun _ => none) 7 (some 3) false 100).2 = false ∧
    (checkAndNotifyStatusChange (fun _ => none) 7 (some 3) false 100).1 7 =
      some { lastNotifiedState := false, notifiedAt := 100 } ∧
    (∀ id, id ≠ 7 →
      (checkAndNotifyStatusChange (fun _ => none) 7 (some 3) false 100).1 id =
        (fun (_ : Int) => (none : Option NotifyState)) id) ∧
    (∀ (rows : List (Int × Bool)) (now sid : Int),
      sid ∉ rows.map Prod.fst → loadInitialNotifyStates rows now sid = none) :=
  first_commit_seeds_notify_state (fun _ => none) 7 (some 3) false 100 rfl

/-- C4: two committed status flips for a site processed within the quiet
period (30 s) produce at most one notification dispatch; a dispatch occurs
only when the new committed status differs from the last notified status
AND at least 30 s have passed since the last notification, and on a
dispatch both NotifyState fields are updated together. -/
theorem notification_throttled (states : Int → Option NotifyState)
    (siteID : Int) (userID : Option Int) (b1 b2 : Bool) (t1 t2 : Int)
    (hq : t2 - t1 < quietPeriodNs) :
    ((checkAndNotifyStatusChange states siteID userID b1 t1).2 = true →
      (checkAndNotifyStatusChange
        (checkAndNotifyStatusChange states siteID userID b1 t1).1
        siteID userID b2 t2).2 = false) ∧
    (∀ (m : Int → Option NotifyState) (b : Bool) (t : Int),
      (checkAndNotifyStatusChange m siteID userID b t).2 = true →
        ∃ st, m siteID = some st ∧ st.lastNotifiedState ≠ b ∧
          t - st.notifiedAt ≥ quietPeriodNs ∧
          (checkAndNotifyStatusChange m siteID userID b t).1 siteID =
            some { lastNotifiedState := b, notifiedAt := t }) := by
  constructor
  · intro hd1
    obtain ⟨st1, _, _, _, hstore⟩ :=
      dispatch_requires_gate states siteID userID b1 t1 hd1
    by_contra hd2
    rw [Bool.not_eq_false] at hd2
    obtain ⟨st2, hlook, _, hgate, _⟩ :=
      dispatch_requires_gate _ siteID userID b2 t2 hd2
    rw [hstore] at hlook
    injection hlook with hst
    rw [← hst] at hgate
    simp only at hgate
    omega
  · exact fun m b t => dispatch_requires_gate m siteID userID b t

theorem notification_throttled_witness :
    ((checkAndNotifyStatusChange
        (fun id => if id = 0 then some { lastNotifiedState := true, notifiedAt := 0 } else none)
        0 (some 1) false 40000000000).2 = true →
      (checkAndNotifyStatusChange
        (checkAndNotifyStatusChange
          (fun id => if id = 0 then some { lastNotifiedState := true, notifiedAt := 0 } else none)
          0 (some 1) false 40000000000).1
        0 (some 1) true 50000000000).2 = false) ∧
    (∀ (m : Int → Option NotifyState) (b : Bool) (t : Int),
      (checkAndNotifyStatusChange m 0 (some 1) b t).2 = true →
        ∃ st, m 0 = some st ∧ st.lastNotifiedState ≠ b ∧
          t - st.notifiedAt ≥ quietPeriodNs ∧
          (checkAndNotifyStatusChange m 0 (some 1) b t).1 0 =
            some { lastNotifiedState := b, notifiedAt := t }) :=
  notification_throttled
    (fun id => if id = 0 then some { lastNotifiedState := true, notifiedAt := 0 } else none)
    0 (some 1) false true 40000000000 50000000000 (by decide)

theorem processCheckResult_under (N : Nat) (counters : Int → Nat)
    (r : CheckResult) (hup : r.isUp = false) (hwas : r.wasUp = true)
    (hlt : counters r.siteID + 1 < N) :
    processCheckResult N counters r =
      { counters := fun id =>
          if id = r.siteID then counters r.siteID + 1 else counters id,
        shouldUpdateDB := false, newIsUp := true } := by
  have hnge : ¬ (counters r.siteID + 1 ≥ N) := by omega
  simp [processCheckResult, hup, hwas, hnge]

theorem processCheckResult_at_threshold (N : Nat) (counters : Int → Nat)
    (r : CheckResult) (hup : r.isUp = false) (hwas : r.wasUp = true)
    (hge : counters r.siteID + 1 ≥ N) :
    processCheckResult N counters r =
      { counters := fun id => if id = r.siteID then 0 else counters id,
        shouldUpdateDB := true, newIsUp := false } := by
  simp [processCheckResult, hup, hwas, hge]

theorem processResultsSeq_below (N : Nat) (r : CheckResult)
    (hup : r.isUp = false) (hwas : r.wasUp = true) :
    ∀ (k : Nat) (counters : Int → Nat), counters r.siteID + k < N →
      (processResultsSeq N counters (List.replicate k r)).1 r.siteID =
        counters r.siteID + k ∧
      ∀ d ∈ (processResultsSeq N counters (List.replicate k r)).2,
        d = (false, true) := by
  intro k
  induction k with
  | zero =>
    intro counters _
    simp [processResultsSeq]
  | succ k ih =>
    intro counters h
    rw [List.replicate_succ]
    simp only [processResultsSeq]
    rw [processCheckResult_under N counters r hup hwas (by omega)]
    obtain ⟨h1, h2⟩ := ih
      (fun id => if id = r.siteID then counters r.siteID + 1 else counters id)
      (by simp; omega)
    constructor
    · simp only [h1]
      simp
      omega
    · simp only [List.mem_cons]
      rintro d (rfl | hd)
      · rfl
      · exact h2 d hd

/-- C1: for a site whose carried committed status is up and whose failure
counter is 0, N-1 consecutive failed results produce no status commit (the
decision keeps the status up), and the Nth consecutive failed result
commits down and resets the counter to 0. -/
theorem hysteresis_threshold (N : Nat) (hN : 0 < N) (counters : Int → Nat)
    (r : CheckResult) (h0 : counters r.siteID = 0)
    (hup : r.isUp = false) (hwas : r.wasUp = true) :
    (∀ d ∈ (processResultsSeq N counters (List.replicate (N - 1) r)).2,
      d = (false, true)) ∧
    (processCheckResult N
      (processResultsSeq N counters (List.replicate (N - 1) r)).1
      r).shouldUpdateDB = true ∧
    (processCheckResult N
      (processResultsSeq N counters (List.replicate (N - 1) r)).1
      r).newIsUp = false ∧
    (processCheckResult N
      (processResultsSeq N counters (List.replicate (N - 1) r)).1
      r).counters r.siteID = 0 := by
  obtain ⟨hc, hd⟩ := processResultsSeq_below N r hup hwas (N - 1) counters
    (by omega)
  rw [processCheckResult_at_threshold N _ r hup hwas (by rw [hc]; omega)]
  exact ⟨hd, rfl, rfl, by simp⟩

theorem hysteresis_threshold_witness :
    (∀ d ∈ (processResultsSeq 3 (fun _ => 0) (List.replicate 2
      { siteID := 4, siteName := "w", userID := some 9, isUp := false,
        wasUp := true, responseTime := 3, errorMsg := "timeout",
        useProxy := false, proxyError := false })).2, d = (false, true)) ∧
    (processCheckResult 3
      (processResultsSeq 3 (fun _ => 0) (List.replicate 2
        { siteID := 4, siteName := "w", userID := some 9, isUp := false,
          wasUp := true, responseTime := 3, errorMsg := "timeout",
          useProxy := false, proxyError := false })).1
      { siteID := 4, siteName := "w", userID := some 9, isUp := false,
        wasUp := true, responseTime := 3, errorMsg := "timeout",
        useProxy := false, proxyError := false }).shouldUpdateDB = true ∧
    (processCheckResult 3
      (processResultsSeq 3 (fun _ => 0) (List.replicate 2
        { siteID := 4, siteName := "w", userID := some 9, isUp := false,
          wasUp := true, responseTime := 3, errorMsg := "timeout",
          useProxy := false, proxyError := false })).1
      { siteID := 4, siteName := "w", userID := some 9, isUp := false,
        wasUp := true, responseTime := 3, errorMsg := "timeout",
        useProxy := false, proxyError := false }).newIsUp = false ∧
    (processCheckResult 3
      (processResultsSeq 3 (fun _ => 0) (List.replicate 2
        { siteID := 4, siteName := "w", userID := some 9, isUp := false,
          wasUp := true, responseTime := 3, errorMsg := "timeout",
          useProxy := false, proxyError := false })).1
      { siteID := 4, siteName := "w", userID := some 9, isUp := false,
        wasUp := true, responseTime := 3, errorMsg := "timeout",
        useProxy := false, proxyError := false }).counters 4 = 0 :=
  hysteresis_threshold 3 (by decide) (fun _ => 0)
    { siteID := 4, siteName := "w", userID := some 9, isUp := false,
      wasUp := true, responseTime := 3, errorMsg := "timeout",
      useProxy := false, proxyError := false } rfl rfl rfl

theorem scheduleTasks_foldl_eq (up : Bool) (cap : Nat) :
    ∀ (sites : List SiteWithStatus) (q : List CheckTask)
      (d : List SiteWithStatus),
      sites.foldl
        (fun acc s =>
          if acc.1.length < cap then
            (acc.1 ++ [{ site := s.site, useProxy := up,
                         currentUp := s.isUp }], acc.2)
          else (acc.1, acc.2 ++ [s]))
        (q, d) =
      (q ++ (sites.take (cap - q.length)).map (mkCheckTask up),
       d ++ sites.drop (cap - q.length)) := by
  intro sites
  induction sites with
  | nil => intro q d; simp
  | cons s rest ih =>
    intro q d
    rw [List.foldl_cons]
    by_cases hq : q.length < cap
    · have hcap : cap - q.length = (cap - (q.length + 1)) + 1 := by omega
      simp only [hq, if_pos]
      rw [ih]
      rw [hcap]
      simp [mkCheckTask, List.take_succ_cons, List.drop_succ_cons,
        List.append_assoc]
    · have hcap : cap - q.length = 0 := by omega
      simp only [hq, if_neg, not_false_iff]
      rw [ih]
      rw [hcap]
      simp [List.append_assoc]

theorem scheduleTasks_eq (cfg alive : Bool) (cap : Nat)
    (queue : List CheckTask) (sites : List SiteWithStatus) :
    scheduleTasks cfg alive cap queue sites =
      (queue ++ (sites.take (cap - queue.length)).map
        (mkCheckTask (cfg && alive)),
       sites.drop (cap - queue.length)) := by
  unfold scheduleTasks
  rw [scheduleTasks_foldl_eq (cfg && alive) cap sites queue []]
  simp

/-- C7: a scheduling pass is a total function of the sites list (it never
blocks): the tasks actually enqueued are exactly one per site until the
bounded queue is full, the sites hit while the queue is full are dropped
for this pass, and every site is accounted for exactly once (enqueued or
dropped). -/
theorem queue_backpressure (cfg alive : Bool) (cap : Nat)
    (queue : List CheckTask) (sites : List SiteWithStatus) :
    (scheduleTasks cfg alive cap queue sites).1 =
      queue ++ (sites.take (cap - queue.length)).map
        (mkCheckTask (cfg && alive)) ∧
    (scheduleTasks cfg alive cap queue sites).2 =
      sites.drop (cap - queue.length) ∧
    (scheduleTasks cfg alive cap queue sites).1.length +
      (scheduleTasks cfg alive cap queue sites).2.length =
      queue.length + sites.length := by
  rw [scheduleTasks_eq]
  refine ⟨rfl, rfl, ?_⟩
  simp
  omega

theorem proxyFail_step (s : ProxyState) (r : CheckResult)
    (hu : r.useProxy = true) (hp : r.proxyError = true) :
    processProxyHealth s r =
      if s.proxyFailures + 1 ≥ proxyThreshold then
        { proxyFailures := 0, proxySuccesses := 0, proxyAlive := false }
      else
        { proxyFailures := s.proxyFailures + 1, proxySuccesses := 0,
          proxyAlive := s.proxyAlive } := by
  by_cases h4 : 4 ≤ s.proxyFailures <;>
    simp [processProxyHealth, hu, hp, proxyThreshold, h4]

theorem proxySuccess_step (s : ProxyState) (r : CheckResult)
    (hu : r.useProxy = true) (hp : r.proxyError = false)
    (hi : r.isUp = true) :
    processProxyHealth s r =
      if s.proxySuccesses + 1 ≥ proxyThreshold then
        { proxyFailures := 0, proxySuccesses := 0, proxyAlive := true }
      else
        { proxyFailures := 0, proxySuccesses := s.proxySuccesses + 1,
          proxyAlive := s.proxyAlive } := by
  by_cases h4 : 4 ≤ s.proxySuccesses <;>
    simp [processProxyHealth, hu, hp, hi, proxyThreshold, h4]

theorem proxySiteFail_step (s : ProxyState) (r : CheckResult)
    (hu : r.useProxy = true) (hp : r.proxyError = false) (hi : r.isUp = false)
    (hf : s.proxyFailures < proxyThreshold)
    (hs : s.proxySuccesses < proxyThreshold) :
    processProxyHealth s r = s := by
  unfold processProxyHealth
  simp only [hu, hp, hi, Bool.false_eq_true, if_false, if_true]
  rw [if_neg (show ¬ s.proxyFailures ≥ proxyThreshold by omega)]
  rw [if_neg (show ¬ s.proxySuccesses ≥ proxyThreshold by omega)]

theorem proxyFail_keeps_dead (r : CheckResult)
    (hu : r.useProxy = true) (hp : r.proxyError = true) :
    ∀ (k : Nat) (s : ProxyState), s.proxyAlive = false →
      ((List.replicate k r).foldl processProxyHealth s).proxyAlive = false := by
  intro k
  induction k with
  | zero => intro s hs; simpa using hs
  | succ k ih =>
    intro s hs
    rw [List.replicate_succ, List.foldl_cons, proxyFail_step s r hu hp]
    by_cases h : s.proxyFailures + 1 ≥ proxyThreshold
    · rw [if_pos h]
      exact ih _ rfl
    · rw [if_neg h]
      exact ih _ hs

theorem proxyFail_run (r : CheckResult)
    (hu : r.useProxy = true) (hp : r.proxyError = true) :
    ∀ (k : Nat) (s : ProxyState), proxyThreshold ≤ s.proxyFailures + k →
      1 ≤ k →
      ((List.replicate k r).foldl processProxyHealth s).proxyAlive = false := by
  intro k
  induction k with
  | zero => intro s _ h1; omega
  | succ k ih =>
    intro s hth _
    rw [List.replicate_succ, List.foldl_cons, proxyFail_step s r hu hp]
    by_cases hc : s.proxyFailures + 1 ≥ proxyThreshold
    · rw [if_pos hc]
      exact proxyFail_keeps_dead r hu hp k _ rfl
    · rw [if_neg hc]
      rcases Nat.eq_zero_or_pos k with hk0 | hk
      · exfalso
        omega
      · refine ih _ ?_ hk
        show proxyThreshold ≤ s.proxyFailures + 1 + k
        omega

/-- C5: five consecutive proxy-classified failures on the proxy path flip
the process-wide proxyAlive flag to false from any proxy state; every task
produced by the next scheduling pass then carries useProxy = false; and in
general the per-pass proxy decision (configured AND alive) is computed once
and applied uniformly to every task produced in a pass. -/
theorem proxy_failover (s : ProxyState) (r : CheckResult)
    (hu : r.useProxy = true) (hp : r.proxyError = true)
    (cfg : Bool) (cap : Nat) (queue : List CheckTask)
    (sites : List SiteWithStatus) :
    ((List.replicate 5 r).foldl processProxyHealth s).proxyAlive = false ∧
    (∀ t ∈ ((scheduleTasks cfg
        ((List.replicate 5 r).foldl processProxyHealth s).proxyAlive
        cap queue sites).1).drop queue.length,
      t.useProxy = false) ∧
    (∀ (alive : Bool) (t : CheckTask),
      t ∈ ((scheduleTasks cfg alive cap queue sites).1).drop queue.length →
        t.useProxy = (cfg && alive)) := by
  have h5 : ((List.replicate 5 r).foldl processProxyHealth s).proxyAlive =
      false := by
    refine proxyFail_run r hu hp 5 s ?_ ?_
    · simp [proxyThreshold]
    · omega
  have huni : ∀ (alive : Bool) (t : CheckTask),
      t ∈ ((scheduleTasks cfg alive cap queue sites).1).drop queue.length →
        t.useProxy = (cfg && alive) := by
    intro alive t ht
    rw [scheduleTasks_eq] at ht
    rw [List.drop_left] at ht
    simp only [List.mem_map] at ht
    obtain ⟨sw, _, rfl⟩ := ht
    rfl
  refine ⟨h5, ?_, huni⟩
  intro t ht
  have := huni _ t ht
  rw [h5] at this
  simpa using this

theorem proxy_failover_witness :
    ((List.replicate 5
      { siteID := 2, siteName := "p", userID := none, isUp := false,
        wasUp := true, responseTime := 1, errorMsg := "bad gateway",
        useProxy := true, proxyError := true }).foldl processProxyHealth
      initialProxyState).proxyAlive = false ∧
    (∀ t ∈ ((scheduleTasks true
        ((List.replicate 5
          { siteID := 2, siteName := "p", userID := none, isUp := false,
            wasUp := true, responseTime := 1, errorMsg := "bad gateway",
            useProxy := true, proxyError := true }).foldl processProxyHealth
          initialProxyState).proxyAlive
        1000 []
        [{ site := { id := 2, name := "p", url := "p.example",
                     userID := none },
           isUp := true }]).1).drop ([] : List CheckTask).length,
      t.useProxy = false) ∧
    (∀ (alive : Bool) (t : CheckTask),
      t ∈ ((scheduleTasks true alive 1000 []
        [{ site := { id := 2, name := "p", url := "p.example",
                     userID := none },
           isUp := true }]).1).drop ([] : List CheckTask).length →
        t.useProxy = (true && alive)) :=
  proxy_failover initialProxyState
    { siteID := 2, siteName := "p", userID := none, isUp := false,
      wasUp := true, responseTime := 1, errorMsg := "bad gateway",
      useProxy := true, proxyError := true } rfl rfl true 1000 []
    [{ site := { id := 2, name := "p", url := "p.example", userID := none },
       isUp := true }]

theorem proxyHealth_step_bounds (s : ProxyState) (r : CheckResult)
    (hf : s.proxyFailures < proxyThreshold)
    (hs : s.proxySuccesses < proxyThreshold) :
    (processProxyHealth s r).proxyFailures < proxyThreshold ∧
    (processProxyHealth s r).proxySuccesses < proxyThreshold := by
  cases hru : r.useProxy with
  | false =>
    simp only [processProxyHealth, hru, Bool.false_eq_true, if_false]
    exact ⟨hf, hs⟩
  | true =>
    cases hre : r.proxyError with
    | true =>
      rw [proxyFail_step s r hru hre]
      by_cases h : s.proxyFailures + 1 ≥ proxyThreshold
      · rw [if_pos h]
        constructor <;> simp [proxyThreshold]
      · rw [if_neg h]
        constructor <;> simp <;> omega
    | false =>
      cases hri : r.isUp with
      | true =>
        rw [proxySuccess_step s r hru hre hri]
        by_cases h : s.proxySuccesses + 1 ≥ proxyThreshold
        · rw [if_pos h]
          constructor <;> simp [proxyThreshold]
        · rw [if_neg h]
          constructor <;> simp <;> omega
      | false =>
        rw [proxySiteFail_step s r hru hre hri hf hs]
        exact ⟨hf, hs⟩

theorem proxyHealth_foldl_bounds :
    ∀ (rs : List CheckResult) (s : ProxyState),
      s.proxyFailures < proxyThreshold →
      s.proxySuccesses < proxyThreshold →
      (rs.foldl processProxyHealth s).proxyFailures < proxyThreshold ∧
      (rs.foldl processProxyHealth s).proxySuccesses < proxyThreshold := by
  intro rs
  induction rs with
  | nil => intro s hf hs; exact ⟨hf, hs⟩
  | cons r rest ih =>
    intro s hf hs
    obtain ⟨hf1, hs1⟩ := proxyHealth_step_bounds s r hf hs
    rw [List.foldl_cons]
    exact ih _ hf1 hs1

theorem proxyResults_bounds (rs : List CheckResult) :
    (processProxyResults rs).proxyFailures < proxyThreshold ∧
    (processProxyResults rs).proxySuccesses < proxyThreshold :=
  proxyHealth_foldl_bounds rs initialProxyState (by decide) (by decide)

/-- C9: a proxy-path result that is neither a success nor a proxy-classified
failure (the site is down for a site-specific reason) leaves the proxy
counters and the proxyAlive flag unchanged in any state reachable from the
checker's initial proxy state, so site-specific failures neither reset nor
advance the proxy failure streak. -/
theorem site_specific_failure_frame (rs : List CheckResult) (r : CheckResult)
    (hu : r.useProxy = true) (hup : r.isUp = false)
    (hpe : r.proxyError = false) :
    processProxyHealth (processProxyResults rs) r = processProxyResults rs := by
  obtain ⟨hf, hs⟩ := proxyResults_bounds rs
  exact proxySiteFail_step _ r hu hpe hup hf hs

theorem site_specific_failure_frame_witness :
    processProxyHealth
      (processProxyResults
        [{ siteID := 3, siteName := "q", userID := none, isUp := false,
           wasUp := true, responseTime := 2, errorMsg := "bad gateway",
           useProxy := true, proxyError := true }])
      { siteID := 3, siteName := "q", userID := none, isUp := false,
        wasUp := true, responseTime := 2, errorMsg := "connection refused",
        useProxy := true, proxyError := false } =
    processProxyResults
      [{ siteID := 3, siteName := "q", userID := none, isUp := false,
         wasUp := true, responseTime := 2, errorMsg := "bad gateway",
         useProxy := true, proxyError := true }] :=
  site_specific_failure_frame
    [{ siteID := 3, siteName := "q", userID := none, isUp := false,
       wasUp := true, responseTime := 2, errorMsg := "bad gateway",
       useProxy := true, proxyError := true }]
    { siteID := 3, siteName := "q", userID := none, isUp := false,
      wasUp := true, responseTime := 2, errorMsg := "connection refused",
      useProxy := true, proxyError := false } rfl rfl rfl

/-- C8: the in-memory hysteresis state is advanced before and independently
of the storage write: every in-memory component of a result-processing step
(failure counters, notify states, proxy state, dispatch decision) is the
same whether the storage write succeeds or fails, the counters always equal
what processCheckResult computed, and when a status commit was decided but
the write fails, storage is unchanged (the failure is only logged) while
the in-memory state still reflects the commit. -/
theorem state_advances_despite_write_failure (N : Nat) (counters : Int → Nat)
    (notifyStates : Int → Option NotifyState) (proxy : ProxyState)
    (db : Int → SiteRow) (r : CheckResult) (now : Int) :
    (resultProcessorStep N counters notifyStates proxy db r now false).counters =
      (resultProcessorStep N counters notifyStates proxy db r now true).counters ∧
    (resultProcessorStep N counters notifyStates proxy db r now false).notifyStates =
      (resultProcessorStep N counters notifyStates proxy db r now true).notifyStates ∧
    (resultProcessorStep N counters notifyStates proxy db r now false).proxy =
      (resultProcessorStep N counters notifyStates proxy db r now true).proxy ∧
    (resultProcessorStep N counters notifyStates proxy db r now false).dispatched =
      (resultProcessorStep N counters notifyStates proxy db r now true).dispatched ∧
    (resultProcessorStep N counters notifyStates proxy db r now false).counters =
      (processCheckResult N counters r).counters ∧
    ((processCheckResult N counters r).shouldUpdateDB = true →
      (resultProcessorStep N counters notifyStates proxy db r now false).db =
        db) := by
  by_cases h : (processCheckResult N counters r).shouldUpdateDB = true
  · refine ⟨?_, ?_, ?_, ?_, ?_, ?_⟩ <;> simp [resultProcessorStep, h]
  · rw [Bool.not_eq_true] at h
    refine ⟨?_, ?_, ?_, ?_, ?_, ?_⟩ <;> simp [resultProcessorStep, h]

theorem state_advances_despite_write_failure_witness :
    (resultProcessorStep 1 (fun _ => 0) (fun _ => none) initialProxyState
      (fun _ => { isUp := true, lastCheck := 0 })
      { siteID := 6, siteName := "z", userID := some 4, isUp := false,
        wasUp := true, responseTime := 8, errorMsg := "timeout",
        useProxy := false, proxyError := false } 0 false).counters 6 = 0 ∧
    (resultProcessorStep 1 (fun _ => 0) (fun _ => none) initialProxyState
      (fun _ => { isUp := true, lastCheck := 0 })
      { siteID := 6, siteName := "z", userID := some 4, isUp := false,
        wasUp := true, responseTime := 8, errorMsg := "timeout",
        useProxy := false, proxyError := false } 0 false).db =
      (fun _ => { isUp := true, lastCheck := 0 }) := by
  have h := state_advances_despite_write_failure 1 (fun _ => 0) (fun _ => none)
    initialProxyState (fun _ => { isUp := true, lastCheck := 0 })
    { siteID := 6, siteName := "z", userID := some 4, isUp := false,
      wasUp := true, responseTime := 8, errorMsg := "timeout",
      useProxy := false, proxyError := false } 0
  refine ⟨?_, h.2.2.2.2.2 rfl⟩
  rw [h.2.2.2.2.1]
  rfl

/-- C3: for a result whose probe outcome equals the carried committed
status, no status commit is performed: the storage effect is exactly
updateSiteResponseTime on the site's row (last_check only), is_up is
unchanged for every row, the notify state is untouched, no notification is
dispatched, and in the already-down case the failure counter map is
unchanged. -/
theorem noop_result_frame (N : Nat) (counters : Int → Nat)
    (notifyStates : Int → Option NotifyState) (proxy : ProxyState)
    (db : Int → SiteRow) (r : CheckResult) (now : Int)
    (h : r.isUp = r.wasUp) :
    (resultProcessorStep N counters notifyStates proxy db r now true).dispatched =
      false ∧
    (resultProcessorStep N counters notifyStates proxy db r now true).notifyStates =
      notifyStates ∧
    (resultProcessorStep N counters notifyStates proxy db r now true).db =
      (fun id => if id = r.siteID then
          updateSiteResponseTime (db id) r.responseTime
        else db id) ∧
    (∀ id,
      ((resultProcessorStep N counters notifyStates proxy db r now true).db
        id).isUp = (db id).isUp) ∧
    (∀ (row : SiteRow) (t : Int),
      (updateSiteResponseTime row t).isUp = row.isUp) ∧
    (r.isUp = false →
      (resultProcessorStep N counters notifyStates proxy db r now true).counters =
        counters) := by
  have hno : (processCheckResult N counters r).shouldUpdateDB = false := by
    cases hup : r.isUp with
    | true =>
      rw [hup] at h
      simp [processCheckResult, hup, ← h]
    | false =>
      rw [hup] at h
      simp [processCheckResult, hup, ← h]
  refine ⟨?_, ?_, ?_, ?_, ?_, ?_⟩
  · simp [resultProcessorStep, hno]
  · simp [resultProcessorStep, hno]
  · simp [resultProcessorStep, hno]
  · intro id
    simp only [resultProcessorStep, hno, Bool.false_eq_true, if_false,
      if_true]
    by_cases hid : id = r.siteID <;> simp [hid, updateSiteResponseTime]
  · intro row t
    rfl
  · intro hup
    rw [hup] at h
    simp [resultProcessorStep, hno, processCheckResult, hup, ← h]

theorem noop_result_frame_witness :
    (resultProcessorStep 3 (fun _ => 0) (fun _ => none) initialProxyState
      (fun _ => { isUp := false, lastCheck := 1 })
      { siteID := 5, siteName := "n", userID := none, isUp := false,
        wasUp := false, responseTime := 9, errorMsg := "refused",
        useProxy := false, proxyError := false } 0 true).dispatched = false ∧
    (resultProcessorStep 3 (fun _ => 0) (fun _ => none) initialProxyState
      (fun _ => { isUp := false, lastCheck := 1 })
      { siteID := 5, siteName := "n", userID := none, isUp := false,
        wasUp := false, responseTime := 9, errorMsg := "refused",
        useProxy := false, proxyError := false } 0 true).notifyStates =
      (fun _ => none) ∧
    (resultProcessorStep 3 (fun _ => 0) (fun _ => none) initialProxyState
      (fun _ => { isUp := false, lastCheck := 1 })
      { siteID := 5, siteName := "n", userID := none, isUp := false,
        wasUp := false, responseTime := 9, errorMsg := "refused",
        useProxy := false, proxyError := false } 0 true).db =
      (fun id => if id = (5 : Int) then
          updateSiteResponseTime ({ isUp := false, lastCheck := 1 }) 9
        else { isUp := false, lastCheck := 1 }) ∧
    (∀ id,
      ((resultProcessorStep 3 (fun _ => 0) (fun _ => none) initialProxyState
        (fun _ => { isUp := false, lastCheck := 1 })
        { siteID := 5, siteName := "n", userID := none, isUp := false,
          wasUp := false, responseTime := 9, errorMsg := "refused",
          useProxy := false, proxyError := false } 0 true).db id).isUp =
      (false : Bool)) ∧
    (∀ (row : SiteRow) (t : Int),
      (updateSiteResponseTime row t).isUp = row.isUp) ∧
    ((false : Bool) = false →
      (resultProcessorStep 3 (fun _ => 0) (fun _ => none) initialProxyState
        (fun _ => { isUp := false, lastCheck := 1 })
        { siteID := 5, siteName := "n", userID := none, isUp := false,
          wasUp := false, responseTime := 9, errorMsg := "refused",
          useProxy := false, proxyError := false } 0 true).counters =
        (fun _ => 0)) :=
  noop_result_frame 3 (fun _ => 0) (fun _ => none) initialProxyState
    (fun _ => { isUp := false, lastCheck := 1 })
    { siteID := 5, siteName := "n", userID := none, isUp := false,
      wasUp := false, responseTime := 9, errorMsg := "refused",
      useProxy := false, proxyError := false } 0 rfl
